import Mathlib

/-!
Shallow embedding of the chanakya-opsec correlation core
(`framework/__init__.py` and `framework/correlation-engine/engine.py`).

Modelling conventions:
* Python floats are modelled as exact rationals (`ℚ`); every constant in the
  scoring formulas is a short decimal, so the formulas are stated exactly.
* `Signal.timestamp` is modelled as nonnegative epoch seconds (`Nat`); the
  engine only ever reads `signal.timestamp.timestamp()` and feeds it to
  `int(x / w)`, and for nonnegative values Python truncation agrees with
  floor division.
* `Signal.value` and `Signal.metadata` are carried as strings / string pairs;
  the engine never inspects them.
* Python dictionaries (`defaultdict(list)`) preserve key insertion order, so
  grouping is modelled as an association list built left to right
  (`addToGroups` / `groupByKey`).
* `list.index` raising `ValueError`, and the resulting failure of
  `_correlate_multi_signal`, is modelled with `Except String`.
-/

inductive OpsecLayer
  | USERLAND
  | KERNEL
  | DNS
  | NETWORK
  | METADATA
  deriving DecidableEq

/-- The lowercase string value of a layer, as in `OpsecLayer(Enum)`. -/
def OpsecLayer.value : OpsecLayer → String
  | .USERLAND => "userland"
  | .KERNEL => "kernel"
  | .DNS => "dns"
  | .NETWORK => "network"
  | .METADATA => "metadata"

inductive CorrelationStrength
  | SOLO
  | PAIR
  | MULTI
  | WEAK
  deriving DecidableEq

/-- The lowercase string value of a strength, as in `CorrelationStrength(Enum)`. -/
def strengthValue : CorrelationStrength → String
  | .SOLO => "solo"
  | .PAIR => "pair"
  | .MULTI => "multi"
  | .WEAK => "weak"

inductive DetectabilityLevel
  | TRIVIAL
  | MODERATE
  | HARD
  | RESEARCH
  deriving DecidableEq

/-- The `Signal` dataclass. `timestamp` is epoch seconds. -/
structure Signal where
  signal_id : String
  layer : OpsecLayer
  description : String
  value : String
  timestamp : Nat
  correlation_potential : CorrelationStrength
  detectability : DetectabilityLevel
  metadata : List (String × String) := []
  deriving DecidableEq

/-- The `CorrelationResult` dataclass. -/
structure CorrelationResult where
  signals : List Signal
  correlation_score : ℚ
  attribution_confidence : String
  correlation_type : String
  explanation : String
  risk_level : String
  deriving DecidableEq

/-- Base individual signal strength table from `calculate_correlation_score`. -/
def base_scores : CorrelationStrength → ℚ
  | .SOLO => 8/10
  | .PAIR => 4/10
  | .MULTI => 2/10
  | .WEAK => 1/10

/-- Number of distinct layers in a group: `len(set(s.layer for s in signals))`. -/
def uniqueLayerCount (signals : List Signal) : Nat :=
  (signals.map (fun s => s.layer)).dedup.length

/-- The `layer_multiplier` local: `1.0 + (unique_layers - 1) * 0.3`.  The guard
makes `unique_layers ≥ 1` at every use, so the cast subtraction is exact. -/
def layer_multiplier (signals : List Signal) : ℚ :=
  1 + ((uniqueLayerCount signals : ℚ) - 1) * (3/10)

/-- The `avg_strength` local: mean of the base strengths over the group. -/
def avg_strength (signals : List Signal) : ℚ :=
  (signals.map (fun s => base_scores s.correlation_potential)).sum /
    (signals.length : ℚ)

/-- `calculate_correlation_score` from `framework/__init__.py`. -/
def calculate_correlation_score (signals : List Signal) : ℚ :=
  if signals = [] then 0
  else
    min ((1 - (1 - avg_strength signals) ^ signals.length) * layer_multiplier signals) 1

/-- `assess_attribution_confidence` from `framework/__init__.py`. -/
def assess_attribution_confidence (correlation_score : ℚ) : String :=
  if 9/10 ≤ correlation_score then "CRITICAL"
  else if 7/10 ≤ correlation_score then "HIGH"
  else if 4/10 ≤ correlation_score then "MEDIUM"
  else "LOW"

/-- `assess_risk_level` from `framework/__init__.py`. -/
def assess_risk_level (attribution_confidence : String) (signal_count : Nat) : String :=
  if attribution_confidence = "CRITICAL" ∨ 4 ≤ signal_count then
    "CRITICAL - OPSEC COMPROMISED"
  else if attribution_confidence = "HIGH" ∨ 3 ≤ signal_count then
    "HIGH - ATTRIBUTION LIKELY"
  else if attribution_confidence = "MEDIUM" then
    "MEDIUM - CORRELATION POSSIBLE"
  else
    "LOW - INSUFFICIENT CORRELATION"

/-! ### Substring matching (Python `needle in haystack`) -/

/-- Whether the first list is a prefix of the second (character lists). -/
def substrAt : List Char → List Char → Bool
  | [], _ => true
  | _ :: _, [] => false
  | n :: ns, h :: hs => n = h && substrAt ns hs

/-- Whether the needle occurs at some position of the haystack. -/
def hasSubstrAux (needle : List Char) : List Char → Bool
  | [] => substrAt needle []
  | c :: hs => substrAt needle (c :: hs) || hasSubstrAux needle hs

/-- Python `needle in hay` (substring containment). -/
def strContains (hay needle : String) : Bool :=
  hasSubstrAux needle.data hay.data

/-! ### Ordered grouping (Python `defaultdict(list)` insertion-order semantics) -/

/-- Append an element to the (unique) group with the given key, or create a
new group at the end — one `defaultdict(list)` update step. -/
def addToGroups {α κ : Type} [DecidableEq κ] :
    List (κ × List α) → κ → α → List (κ × List α)
  | [], k, a => [(k, [a])]
  | (k', g) :: rest, k, a =>
      if k' = k then (k', g ++ [a]) :: rest
      else (k', g) :: addToGroups rest k a

/-- Group a list by a key, keys in first-occurrence order, each group keeping
the original element order — a Python `defaultdict(list)` loop. -/
def groupByKey {α κ : Type} [DecidableEq κ] (key : α → κ) (l : List α) :
    List (κ × List α) :=
  l.foldl (fun gs a => addToGroups gs (key a) a) []

/-- First-occurrence deduplication of a list of keys. -/
def firstKeys {κ : Type} [DecidableEq κ] (l : List κ) : List κ :=
  l.foldl (fun acc k => if k ∈ acc then acc else acc ++ [k]) []

/-! ### Correlation engine -/

def temporalType : String := "TEMPORAL"

def dnsNetworkType : String := "DNS_NETWORK_CORRELATION"

def tzTimingType : String := "TIMEZONE_TIMING_CORRELATION"

def multiLayerType : String := "MULTI_LAYER_CONVERGENCE"

/-- Build a `CorrelationResult` the way every pass does: score the group,
classify confidence from the score, classify risk from confidence and group
size. -/
def mkResult (ctype expl : String) (g : List Signal) : CorrelationResult :=
  let score := calculate_correlation_score g
  let confidence := assess_attribution_confidence score
  { signals := g
    correlation_score := score
    attribution_confidence := confidence
    correlation_type := ctype
    explanation := expl
    risk_level := assess_risk_level confidence g.length }

/-- Temporal bucket key: `int(signal.timestamp.timestamp() / time_window_seconds)`
(floor division for nonnegative epoch seconds). -/
def bucketKey (w : Nat) (s : Signal) : Nat :=
  s.timestamp / w

/-- Explanation string of a temporal correlation. -/
def temporalExpl (w : Nat) (g : List Signal) : String :=
  toString g.length ++ " signals from " ++ toString (uniqueLayerCount g) ++
    " layers occurred within " ++ toString w ++ "s window"

/-- `_correlate_temporal`: bucket all signals by floored window index, emit one
TEMPORAL result per bucket holding ≥2 signals from ≥2 distinct layers. -/
def correlate_temporal (w : Nat) (signals : List Signal) : List CorrelationResult :=
  (groupByKey (bucketKey w) signals).filterMap (fun kg =>
    if 2 ≤ kg.2.length ∧ 2 ≤ uniqueLayerCount kg.2 then
      some (mkResult temporalType (temporalExpl w kg.2) kg.2)
    else none)

def resolverLit : String := "resolver"

def publicResolverLit : String := "public_resolver"

def asLit : String := "as"

def timezoneLit : String := "timezone"

def localeLit : String := "locale"

def timeLit : String := "time"

def timingLit : String := "timing"

/-- Predicate of the DNS side of pattern 1:
`'resolver' in s.signal_id or 'public_resolver' in s.signal_id`. -/
def dnsResolverMatch (s : Signal) : Bool :=
  strContains s.signal_id resolverLit || strContains s.signal_id publicResolverLit

/-- Predicate of the NETWORK side of pattern 1: `'as' in s.signal_id.lower()`. -/
def asMatch (s : Signal) : Bool :=
  strContains s.signal_id.toLower asLit

/-- Predicate of the USERLAND side of pattern 2. -/
def timezoneMatch (s : Signal) : Bool :=
  strContains s.signal_id timezoneLit || strContains s.signal_id localeLit

/-- Predicate of the METADATA side of pattern 2. -/
def timingMatch (s : Signal) : Bool :=
  strContains s.signal_id timeLit || strContains s.signal_id timingLit

def dnsNetworkExpl : String :=
  "DNS resolver and network AS signals enable infrastructure correlation"

def tzTimingExpl : String :=
  "Timezone and activity timing signals enable geographic/human attribution"

/-- `_correlate_cross_layer`: two hardcoded patterns.  `layer_signals.get(L, [])`
is the in-order sublist of signals on layer `L`, i.e. a filter. -/
def correlate_cross_layer (signals : List Signal) : List CorrelationResult :=
  let dns_signals := signals.filter (fun s => s.layer = OpsecLayer.DNS)
  let network_signals := signals.filter (fun s => s.layer = OpsecLayer.NETWORK)
  let dns_resolver_signals := dns_signals.filter dnsResolverMatch
  let as_signals := network_signals.filter asMatch
  let part1 :=
    if dns_resolver_signals ≠ [] ∧ as_signals ≠ [] then
      [mkResult dnsNetworkType dnsNetworkExpl (dns_resolver_signals ++ as_signals)]
    else []
  let userland_signals := signals.filter (fun s => s.layer = OpsecLayer.USERLAND)
  let metadata_signals := signals.filter (fun s => s.layer = OpsecLayer.METADATA)
  let timezone_signals := userland_signals.filter timezoneMatch
  let timing_signals := metadata_signals.filter timingMatch
  let part2 :=
    if timezone_signals ≠ [] ∧ timing_signals ≠ [] then
      [mkResult tzTimingType tzTimingExpl (timezone_signals ++ timing_signals)]
    else []
  part1 ++ part2

/-! ### Multi-signal convergence pass -/

/-- `list.index` on Python lists: position of the first occurrence, `none`
when absent (Python raises `ValueError` there). -/
def idxInList : List String → String → Option Nat
  | [], _ => none
  | a :: l, x => if a = x then some 0 else (idxInList l x).map (fun i => i + 1)

def notInListMsg : String := " is not in list"

/-- The sort key of `_correlate_multi_signal`:
`['WEAK', 'MULTI', 'PAIR', 'SOLO'].index(s.correlation_potential.value)`.
The enum values are lowercase, so the lookup fails (`ValueError`). -/
def keyOrErr (s : Signal) : Except String Nat :=
  match idxInList ["WEAK", "MULTI", "PAIR", "SOLO"]
      (strengthValue s.correlation_potential) with
  | some i => Except.ok i
  | none => Except.error (strengthValue s.correlation_potential ++ notInListMsg)

/-- First element attaining the minimal key — `sorted(...)` with a stable sort
followed by `[0]` selects exactly this element. -/
def firstMinBySnd : List (Signal × Nat) → Option Signal
  | [] => none
  | p :: ps =>
      match firstMinBySnd ps with
      | none => some p.1
      | some q =>
          match ps.find? (fun r => r.2 < p.2) with
          | some _ => some q
          | none => some p.1

def idxErrMsg : String := "list index out of range"

/-- Run a fallible step over a list left to right, collecting the outputs and
propagating the first exception — a Python `for` loop body that may raise. -/
def mapExc {α β : Type} (f : α → Except String β) : List α → Except String (List β)
  | [] => Except.ok []
  | a :: l =>
      match f a with
      | Except.error e => Except.error e
      | Except.ok b =>
          match mapExc f l with
          | Except.error e => Except.error e
          | Except.ok bs => Except.ok (b :: bs)

/-- Representative of one layer group: Python's
`sorted(signals, key=...)[0]`.  `sorted` evaluates the key on every element
first (raising `ValueError` on the first failure); indexing an empty sorted
list would raise `IndexError`. -/
def reprOfGroup (g : List Signal) : Except String Signal :=
  match mapExc (fun s =>
      match keyOrErr s with
      | Except.error e => Except.error e
      | Except.ok i => Except.ok (s, i)) g with
  | Except.error e => Except.error e
  | Except.ok pairs =>
      match firstMinBySnd pairs with
      | some s => Except.ok s
      | none => Except.error idxErrMsg

/-- Explanation string of a convergence correlation. -/
def multiLayerExpl (n : Nat) : String :=
  "Signals from " ++ toString n ++ " different layers converge for high-confidence attribution"

/-- `_correlate_multi_signal`: group by layer; with ≥3 layer groups pick one
representative per group and emit one MULTI_LAYER_CONVERGENCE result.  The
key lookup raises, modelled with `Except.error`. -/
def correlate_multi_signal (signals : List Signal) :
    Except String (List CorrelationResult) :=
  let layer_groups := groupByKey (fun s => s.layer) signals
  if 3 ≤ layer_groups.length then
    match mapExc (fun kg => reprOfGroup kg.2) layer_groups with
    | Except.error e => Except.error e
    | Except.ok representative_signals =>
        if 3 ≤ representative_signals.length then
          Except.ok [mkResult multiLayerType
            (multiLayerExpl representative_signals.length) representative_signals]
        else Except.ok []
  else Except.ok []

/-! ### `correlate_all` and downstream derivations -/

/-- `correlate_all`: the three passes in fixed order, outputs concatenated.
An exception escaping the multi-signal pass propagates to the caller. -/
def correlate_all (signals : List Signal) : Except String (List CorrelationResult) :=
  let temporal_corrs := correlate_temporal 300 signals
  let cross_layer_corrs := correlate_cross_layer signals
  match correlate_multi_signal signals with
  | Except.error e => Except.error e
  | Except.ok multi_corrs => Except.ok (temporal_corrs ++ cross_layer_corrs ++ multi_corrs)

/-- The `self.correlations` state after a `correlate_all` call: the first two
passes have already extended it when the multi-signal pass raises. -/
def correlate_all_stored (signals : List Signal) : List CorrelationResult :=
  let temporal_corrs := correlate_temporal 300 signals
  let cross_layer_corrs := correlate_cross_layer signals
  match correlate_multi_signal signals with
  | Except.error _ => temporal_corrs ++ cross_layer_corrs
  | Except.ok multi_corrs => temporal_corrs ++ cross_layer_corrs ++ multi_corrs

/-- `get_high_risk_correlations`: confidence HIGH or CRITICAL. -/
def get_high_risk_correlations (correlations : List CorrelationResult) :
    List CorrelationResult :=
  correlations.filter (fun c =>
    c.attribution_confidence = "HIGH" ∨ c.attribution_confidence = "CRITICAL")

/-- A mitigation recommendation entry. -/
structure Recommendation where
  priority : String
  issue : String
  recommendation : String
  layers : List String
  deriving DecidableEq

/-- Layer names of a correlation: `list(set(s.layer.value for s in signals))`.
Python set iteration order is unspecified; fixed here as first occurrence
(nothing downstream depends on the order). -/
def layersOf (c : CorrelationResult) : List String :=
  firstKeys (c.signals.map (fun s => s.layer.value))

def dnsIssue : String := "DNS resolver and network AS mismatch"

def dnsRec : String :=
  "Use DNS resolver in same AS as VPN exit, or deploy private recursive resolver"

def tzIssue : String := "Timezone and activity timing correlation"

def tzRec : String :=
  "Automate operations with randomized timing, or operate across multiple timezones"

def multiRec : String :=
  "Break correlation chains by isolating operational layers and adding noise/diversity"

/-- The fixed remediation template of `get_mitigation_recommendations`: only
three correlation types map to an entry. -/
def recTemplate (c : CorrelationResult) : Option Recommendation :=
  if c.correlation_type = dnsNetworkType then
    some { priority := "CRITICAL", issue := dnsIssue, recommendation := dnsRec,
           layers := ["DNS", "NETWORK"] }
  else if c.correlation_type = tzTimingType then
    some { priority := "HIGH", issue := tzIssue, recommendation := tzRec,
           layers := ["USERLAND", "METADATA"] }
  else if c.correlation_type = multiLayerType then
    some { priority := "CRITICAL",
           issue := "Signals from " ++ toString c.signals.length ++ " layers correlate",
           recommendation := multiRec,
           layers := layersOf c }
  else none

/-- The final dedup loop of `get_mitigation_recommendations`: keep the first
entry per `(priority, issue)` key. -/
def dedupRecs : List Recommendation → List (String × String) → List Recommendation
  | [], _ => []
  | r :: rs, seen =>
      if (r.priority, r.issue) ∈ seen then dedupRecs rs seen
      else r :: dedupRecs rs ((r.priority, r.issue) :: seen)

/-- `get_mitigation_recommendations` over the stored correlations. -/
def get_mitigation_recommendations (correlations : List CorrelationResult) :
    List Recommendation :=
  dedupRecs ((get_high_risk_correlations correlations).filterMap recTemplate) []

/-! ### Lemmas: first-occurrence keys -/

lemma firstKeys_aux_mem {κ : Type} [DecidableEq κ] (l : List κ) (acc : List κ) (x : κ) :
    x ∈ l.foldl (fun acc k => if k ∈ acc then acc else acc ++ [k]) acc ↔
      x ∈ acc ∨ x ∈ l := by
  induction l generalizing acc with
  | nil => simp
  | cons a l ih =>
      simp only [List.foldl_cons, ih, List.mem_cons]
      by_cases h : a ∈ acc
      · simp only [if_pos h]
        constructor
        · rintro (hx | hx)
          · exact Or.inl hx
          · exact Or.inr (Or.inr hx)
        · rintro (hx | hx | hx)
          · exact Or.inl hx
          · exact Or.inl (hx ▸ h)
          · exact Or.inr hx
      · simp only [if_neg h, List.mem_append, List.mem_singleton]
        tauto

lemma mem_firstKeys {κ : Type} [DecidableEq κ] (l : List κ) (x : κ) :
    x ∈ firstKeys l ↔ x ∈ l := by
  simpa using firstKeys_aux_mem l [] x

lemma firstKeys_aux_nodup {κ : Type} [DecidableEq κ] (l : List κ) (acc : List κ)
    (h : acc.Nodup) :
    (l.foldl (fun acc k => if k ∈ acc then acc else acc ++ [k]) acc).Nodup := by
  induction l generalizing acc with
  | nil => simpa using h
  | cons a l ih =>
      simp only [List.foldl_cons]
      apply ih
      by_cases ha : a ∈ acc
      · simpa [ha] using h
      · simp only [if_neg ha]
        refine h.append (List.nodup_singleton a) ?_
        intro x hx hxa
        exact ha ((List.mem_singleton.mp hxa) ▸ hx)

lemma firstKeys_nodup {κ : Type} [DecidableEq κ] (l : List κ) :
    (firstKeys l).Nodup :=
  firstKeys_aux_nodup l [] List.nodup_nil

lemma firstKeys_append {κ : Type} [DecidableEq κ] (l : List κ) (x : κ) :
    firstKeys (l ++ [x]) =
      if x ∈ firstKeys l then firstKeys l else firstKeys l ++ [x] := by
  simp [firstKeys, List.foldl_append]

/-! ### Lemmas: grouping -/

lemma addToGroups_map {α κ : Type} [DecidableEq κ] (ks : List κ) (f : κ → List α)
    (k : κ) (a : α) (hnd : ks.Nodup) :
    addToGroups (ks.map (fun k0 => (k0, f k0))) k a =
      if k ∈ ks then
        ks.map (fun k0 => (k0, if k0 = k then f k0 ++ [a] else f k0))
      else ks.map (fun k0 => (k0, f k0)) ++ [(k, [a])] := by
  induction ks with
  | nil => simp [addToGroups]
  | cons b ks ih =>
      rcases List.nodup_cons.mp hnd with ⟨hb, hnd2⟩
      by_cases hbk : b = k
      · subst hbk
        have h1 : addToGroups ((b :: ks).map (fun k0 => (k0, f k0))) b a =
            (b, f b ++ [a]) :: ks.map (fun k0 => (k0, f k0)) := by
          simp [addToGroups]
        rw [h1, if_pos (List.mem_cons_self b ks), List.map_cons, if_pos rfl]
        congr 1
        exact List.map_congr_left (fun k0 hk0 => by
          have hne : k0 ≠ b := fun he => hb (he ▸ hk0)
          simp [hne])
      · have h1 : addToGroups ((b :: ks).map (fun k0 => (k0, f k0))) k a =
            (b, f b) :: addToGroups (ks.map (fun k0 => (k0, f k0))) k a := by
          simp [addToGroups, hbk]
        rw [h1, ih hnd2]
        by_cases hk : k ∈ ks
        · rw [if_pos hk, if_pos (List.mem_cons.mpr (Or.inr hk)), List.map_cons,
            if_neg hbk]
        · have hmem : k ∉ b :: ks := by
            intro hc
            rcases List.mem_cons.mp hc with h | h
            · exact hbk h.symm
            · exact hk h
          rw [if_neg hk, if_neg hmem, List.map_cons, List.cons_append]

lemma groupByKey_aux {α κ : Type} [DecidableEq κ] (key : α → κ) (p rest : List α) :
    rest.foldl (fun gs a => addToGroups gs (key a) a)
      ((firstKeys (p.map key)).map (fun k => (k, p.filter (fun a => key a = k)))) =
    (firstKeys ((p ++ rest).map key)).map
      (fun k => (k, (p ++ rest).filter (fun a => key a = k))) := by
  induction rest generalizing p with
  | nil => simp
  | cons s rest ih =>
      rw [List.foldl_cons]
      have hstep : addToGroups
          ((firstKeys (p.map key)).map (fun k => (k, p.filter (fun a => key a = k))))
          (key s) s =
          (firstKeys ((p ++ [s]).map key)).map
            (fun k => (k, (p ++ [s]).filter (fun a => key a = k))) := by
        rw [addToGroups_map _ _ _ _ (firstKeys_nodup _)]
        have hmk : (p ++ [s]).map key = p.map key ++ [key s] := by simp
        by_cases hmem : key s ∈ firstKeys (p.map key)
        · rw [if_pos hmem, hmk, firstKeys_append, if_pos hmem]
          refine List.map_congr_left (fun k hk => ?_)
          by_cases hks : k = key s
          · subst hks
            simp [List.filter_append]
          · have hne : ¬ (key s = k) := fun he => hks he.symm
            simp [List.filter_append, hne, hks]
        · rw [if_neg hmem, hmk, firstKeys_append, if_neg hmem, List.map_append]
          have hnotp : key s ∉ p.map key := fun hc => hmem ((mem_firstKeys _ _).mpr hc)
          congr 1
          · refine List.map_congr_left (fun k hk => ?_)
            have hks : ¬ (key s = k) := by
              intro he
              exact hmem (he ▸ hk)
            simp [List.filter_append, hks]
          · have hfil : p.filter (fun a => key a = key s) = [] := by
              refine List.filter_eq_nil_iff.mpr (fun a ha => ?_)
              simp only [decide_eq_true_eq]
              intro he
              exact hnotp (he ▸ List.mem_map_of_mem key ha)
            simp [List.filter_append, hfil]
      rw [hstep]
      have := ih (p ++ [s])
      simpa using this

lemma groupByKey_eq {α κ : Type} [DecidableEq κ] (key : α → κ) (l : List α) :
    groupByKey key l =
      (firstKeys (l.map key)).map (fun k => (k, l.filter (fun a => key a = k))) := by
  have h := groupByKey_aux key [] l
  simpa [groupByKey, firstKeys] using h

lemma groupByKey_fst {α κ : Type} [DecidableEq κ] (key : α → κ) (l : List α) :
    (groupByKey key l).map Prod.fst = firstKeys (l.map key) := by
  rw [groupByKey_eq, List.map_map]
  exact List.map_id _

lemma groupByKey_content {α κ : Type} [DecidableEq κ] (key : α → κ) (l : List α) :
    ∀ kg ∈ groupByKey key l, kg.2 = l.filter (fun a => key a = kg.1) := by
  intro kg hkg
  rw [groupByKey_eq] at hkg
  rcases List.mem_map.mp hkg with ⟨k, _, hk2⟩
  rw [← hk2]

/-! ### Lemmas: score bounds -/

lemma base_scores_nonneg (c : CorrelationStrength) : 0 ≤ base_scores c := by
  cases c <;> norm_num [base_scores]

lemma base_scores_le_one (c : CorrelationStrength) : base_scores c ≤ 1 := by
  cases c <;> norm_num [base_scores]

lemma list_sum_le_length (l : List ℚ) (h : ∀ x ∈ l, x ≤ 1) :
    l.sum ≤ (l.length : ℚ) := by
  induction l with
  | nil => simp
  | cons a l ih =>
      simp only [List.sum_cons, List.length_cons]
      push_cast
      have ha := h a (List.mem_cons_self a l)
      have hl := ih (fun x hx => h x (List.mem_cons_of_mem a hx))
      linarith

lemma uniqueLayerCount_pos (signals : List Signal) (h : signals ≠ []) :
    1 ≤ uniqueLayerCount signals := by
  unfold uniqueLayerCount
  refine List.length_pos.mpr ?_
  rw [Ne, List.dedup_eq_nil]
  simpa using h

lemma avg_strength_nonneg (signals : List Signal) : 0 ≤ avg_strength signals := by
  refine div_nonneg (List.sum_nonneg ?_) (by positivity)
  intro x hx
  rcases List.mem_map.mp hx with ⟨s, _, rfl⟩
  exact base_scores_nonneg _

lemma avg_strength_le_one (signals : List Signal) (h : signals ≠ []) :
    avg_strength signals ≤ 1 := by
  unfold avg_strength
  have hlen : 0 < (signals.length : ℚ) := by
    have : signals.length ≠ 0 := fun hc => h (List.length_eq_zero.mp hc)
    exact_mod_cast Nat.pos_of_ne_zero this
  rw [div_le_one hlen]
  have := list_sum_le_length (signals.map (fun s => base_scores s.correlation_potential))
    (by
      intro x hx
      rcases List.mem_map.mp hx with ⟨s, _, rfl⟩
      exact base_scores_le_one _)
  simpa using this

lemma layer_multiplier_ge_one (signals : List Signal) (h : signals ≠ []) :
    1 ≤ layer_multiplier signals := by
  unfold layer_multiplier
  have h1 : 1 ≤ uniqueLayerCount signals := uniqueLayerCount_pos signals h
  have h2 : (1:ℚ) ≤ (uniqueLayerCount signals : ℚ) := by exact_mod_cast h1
  nlinarith

lemma score_bounds (signals : List Signal) :
    0 ≤ calculate_correlation_score signals ∧ calculate_correlation_score signals ≤ 1 := by
  unfold calculate_correlation_score
  by_cases h : signals = []
  · simp [h]
  · rw [if_neg h]
    have h0 := avg_strength_nonneg signals
    have h1 := avg_strength_le_one signals h
    have hm := layer_multiplier_ge_one signals h
    have hpow0 : 0 ≤ (1 - avg_strength signals) ^ signals.length :=
      pow_nonneg (by linarith) _
    have hpow1 : (1 - avg_strength signals) ^ signals.length ≤ 1 :=
      pow_le_one₀ (by linarith) (by linarith)
    refine ⟨le_min (mul_nonneg (by linarith) (by linarith)) (by norm_num),
      min_le_right _ _⟩

/-! ### Example signals -/

def sigSoloU1 : Signal :=
  { signal_id := "a", layer := OpsecLayer.USERLAND, description := "", value := "",
    timestamp := 0, correlation_potential := CorrelationStrength.SOLO,
    detectability := DetectabilityLevel.TRIVIAL }

def sigSoloU2 : Signal :=
  { signal_id := "b", layer := OpsecLayer.USERLAND, description := "", value := "",
    timestamp := 10, correlation_potential := CorrelationStrength.SOLO,
    detectability := DetectabilityLevel.TRIVIAL }

def sigSoloD1 : Signal :=
  { signal_id := "c", layer := OpsecLayer.DNS, description := "", value := "",
    timestamp := 20, correlation_potential := CorrelationStrength.SOLO,
    detectability := DetectabilityLevel.TRIVIAL }

def sigSoloN1 : Signal :=
  { signal_id := "d", layer := OpsecLayer.NETWORK, description := "", value := "",
    timestamp := 30, correlation_potential := CorrelationStrength.SOLO,
    detectability := DetectabilityLevel.TRIVIAL }

/-! ### Claim C1 -/

/-- C1: `calculate_correlation_score` returns 0 on the empty group (explicit
guard) and otherwise `min(1, (1 − (1 − avg)^n) × (1 + 0.3 × (L − 1)))` with
`avg` the mean base strength and `L` the number of distinct layers; one SOLO
signal scores 0.8, two SOLO signals in one layer 0.96, and two SOLO signals
in two layers clamp to 1. -/
theorem c1_score_formula :
    (∀ signals : List Signal,
      calculate_correlation_score signals =
        if signals = [] then 0
        else
          min 1 ((1 - (1 - (signals.map (fun s => base_scores s.correlation_potential)).sum /
              (signals.length : ℚ)) ^ signals.length) *
            (1 + (3/10) * (((signals.map (fun s => s.layer)).toFinset.card : ℚ) - 1))))
    ∧ calculate_correlation_score [sigSoloU1] = 8/10
    ∧ calculate_correlation_score [sigSoloU1, sigSoloU2] = 96/100
    ∧ calculate_correlation_score [sigSoloU1, sigSoloD1] = 1 := by
  refine ⟨fun signals => ?_, ?_, ?_, ?_⟩
  · by_cases h : signals = []
    · simp [h, calculate_correlation_score]
    · rw [calculate_correlation_score, if_neg h, if_neg h, min_comm]
      congr 1
      rw [List.card_toFinset]
      unfold avg_strength layer_multiplier uniqueLayerCount
      ring
  · have ha : avg_strength [sigSoloU1] = 8/10 := by
      simp only [avg_strength, List.map_cons, List.map_nil, List.sum_cons, List.sum_nil,
        List.length_cons, List.length_nil]
      norm_num [sigSoloU1, base_scores]
    have hm : layer_multiplier [sigSoloU1] = 1 := by
      have hL : uniqueLayerCount [sigSoloU1] = 1 := rfl
      simp only [layer_multiplier, hL]
      norm_num
    rw [calculate_correlation_score, if_neg (by simp), ha, hm]
    rw [show ([sigSoloU1] : List Signal).length = 1 from rfl]
    rw [min_eq_left (by norm_num)]
    norm_num
  · have ha : avg_strength [sigSoloU1, sigSoloU2] = 8/10 := by
      simp only [avg_strength, List.map_cons, List.map_nil, List.sum_cons, List.sum_nil,
        List.length_cons, List.length_nil]
      norm_num [sigSoloU1, sigSoloU2, base_scores]
    have hm : layer_multiplier [sigSoloU1, sigSoloU2] = 1 := by
      have hL : uniqueLayerCount [sigSoloU1, sigSoloU2] = 1 := rfl
      simp only [layer_multiplier, hL]
      norm_num
    rw [calculate_correlation_score, if_neg (by simp), ha, hm]
    rw [show ([sigSoloU1, sigSoloU2] : List Signal).length = 2 from rfl]
    rw [min_eq_left (by norm_num)]
    norm_num
  · have ha : avg_strength [sigSoloU1, sigSoloD1] = 8/10 := by
      simp only [avg_strength, List.map_cons, List.map_nil, List.sum_cons, List.sum_nil,
        List.length_cons, List.length_nil]
      norm_num [sigSoloU1, sigSoloD1, base_scores]
    have hm : layer_multiplier [sigSoloU1, sigSoloD1] = 13/10 := by
      have hL : uniqueLayerCount [sigSoloU1, sigSoloD1] = 2 := rfl
      simp only [layer_multiplier, hL]
      norm_num
    rw [calculate_correlation_score, if_neg (by simp), ha, hm]
    rw [show ([sigSoloU1, sigSoloD1] : List Signal).length = 2 from rfl]
    rw [min_eq_right (by norm_num)]

/-! ### Claim C2 -/

/-- C2: `assess_attribution_confidence` returns CRITICAL iff score ≥ 0.9, HIGH
iff 0.7 ≤ score < 0.9, MEDIUM iff 0.4 ≤ score < 0.7 and LOW iff score < 0.4;
boundaries are inclusive on the higher band. -/
theorem c2_confidence_bands :
    (∀ s : ℚ,
      (assess_attribution_confidence s = "CRITICAL" ↔ 9/10 ≤ s)
      ∧ (assess_attribution_confidence s = "HIGH" ↔ 7/10 ≤ s ∧ s < 9/10)
      ∧ (assess_attribution_confidence s = "MEDIUM" ↔ 4/10 ≤ s ∧ s < 7/10)
      ∧ (assess_attribution_confidence s = "LOW" ↔ s < 4/10))
    ∧ assess_attribution_confidence (9/10) = "CRITICAL"
    ∧ assess_attribution_confidence (89999/100000) = "HIGH"
    ∧ assess_attribution_confidence (7/10) = "HIGH"
    ∧ assess_attribution_confidence (4/10) = "MEDIUM"
    ∧ assess_attribution_confidence (39999/100000) = "LOW" := by
  refine ⟨fun s => ?_, ?_, ?_, ?_, ?_, ?_⟩
  · rcases lt_or_le s (4/10) with h4 | h4
    · have e : assess_attribution_confidence s = "LOW" := by
        unfold assess_attribution_confidence
        rw [if_neg (by linarith), if_neg (by linarith), if_neg (by linarith)]
      rw [e]
      exact ⟨iff_of_false (by decide) (by intro hc; linarith),
        iff_of_false (by decide) (by intro hc; linarith [hc.1]),
        iff_of_false (by decide) (by intro hc; linarith [hc.1]),
        iff_of_true rfl h4⟩
    · rcases lt_or_le s (7/10) with h7 | h7
      · have e : assess_attribution_confidence s = "MEDIUM" := by
          unfold assess_attribution_confidence
          rw [if_neg (by linarith), if_neg (by linarith), if_pos h4]
        rw [e]
        exact ⟨iff_of_false (by decide) (by intro hc; linarith),
          iff_of_false (by decide) (by intro hc; linarith [hc.1]),
          iff_of_true rfl ⟨h4, h7⟩,
          iff_of_false (by decide) (by intro hc; linarith)⟩
      · rcases lt_or_le s (9/10) with h9 | h9
        · have e : assess_attribution_confidence s = "HIGH" := by
            unfold assess_attribution_confidence
            rw [if_neg (by linarith), if_pos h7]
          rw [e]
          exact ⟨iff_of_false (by decide) (by intro hc; linarith),
            iff_of_true rfl ⟨h7, h9⟩,
            iff_of_false (by decide) (by intro hc; linarith [hc.2]),
            iff_of_false (by decide) (by intro hc; linarith)⟩
        · have e : assess_attribution_confidence s = "CRITICAL" := by
            unfold assess_attribution_confidence
            rw [if_pos h9]
          rw [e]
          exact ⟨iff_of_true rfl h9,
            iff_of_false (by decide) (by intro hc; linarith [hc.2]),
            iff_of_false (by decide) (by intro hc; linarith [hc.2]),
            iff_of_false (by decide) (by intro hc; linarith)⟩
  · unfold assess_attribution_confidence
    rw [if_pos (by norm_num)]
  · unfold assess_attribution_confidence
    rw [if_neg (by norm_num), if_pos (by norm_num)]
  · unfold assess_attribution_confidence
    rw [if_neg (by norm_num), if_pos (by norm_num)]
  · unfold assess_attribution_confidence
    rw [if_neg (by norm_num), if_neg (by norm_num), if_pos (by norm_num)]
  · unfold assess_attribution_confidence
    rw [if_neg (by norm_num), if_neg (by norm_num), if_neg (by norm_num)]

/-! ### Claim C3 -/

/-- C3: `assess_risk_level` evaluates in exact precedence — CRITICAL if the
confidence is CRITICAL or the count is ≥ 4; else HIGH if the confidence is
HIGH or the count is ≥ 3; else MEDIUM if the confidence is MEDIUM; else LOW.
In particular the count override gives `risk(LOW, 5)` the CRITICAL level. -/
theorem c3_risk_precedence :
    (∀ (c : String) (k : Nat),
      (assess_risk_level c k = "CRITICAL - OPSEC COMPROMISED" ↔
        (c = "CRITICAL" ∨ 4 ≤ k))
      ∧ (assess_risk_level c k = "HIGH - ATTRIBUTION LIKELY" ↔
          (¬(c = "CRITICAL" ∨ 4 ≤ k) ∧ (c = "HIGH" ∨ 3 ≤ k)))
      ∧ (assess_risk_level c k = "MEDIUM - CORRELATION POSSIBLE" ↔
          (¬(c = "CRITICAL" ∨ 4 ≤ k) ∧ ¬(c = "HIGH" ∨ 3 ≤ k) ∧ c = "MEDIUM"))
      ∧ (assess_risk_level c k = "LOW - INSUFFICIENT CORRELATION" ↔
          (¬(c = "CRITICAL" ∨ 4 ≤ k) ∧ ¬(c = "HIGH" ∨ 3 ≤ k) ∧ ¬(c = "MEDIUM"))))
    ∧ assess_risk_level "LOW" 5 = "CRITICAL - OPSEC COMPROMISED" := by
  refine ⟨fun c k => ?_, by decide⟩
  unfold assess_risk_level
  split_ifs with h1 h2 h3
  · exact ⟨iff_of_true rfl h1,
      iff_of_false (by decide) (fun hc => hc.1 h1),
      iff_of_false (by decide) (fun hc => hc.1 h1),
      iff_of_false (by decide) (fun hc => hc.1 h1)⟩
  · exact ⟨iff_of_false (by decide) h1,
      iff_of_true rfl ⟨h1, h2⟩,
      iff_of_false (by decide) (fun hc => hc.2.1 h2),
      iff_of_false (by decide) (fun hc => hc.2.1 h2)⟩
  · exact ⟨iff_of_false (by decide) h1,
      iff_of_false (by decide) (fun hc => h2 hc.2),
      iff_of_true rfl ⟨h1, h2, h3⟩,
      iff_of_false (by decide) (fun hc => hc.2.2 h3)⟩
  · exact ⟨iff_of_false (by decide) h1,
      iff_of_false (by decide) (fun hc => h2 hc.2),
      iff_of_false (by decide) (fun hc => h3 hc.2.2),
      iff_of_true rfl ⟨h1, h2, h3⟩⟩

/-! ### Claim C4 -/

lemma filterMap_ite {α β : Type} (p : α → Prop) [DecidablePred p] (f : α → β)
    (l : List α) :
    l.filterMap (fun a => if p a then some (f a) else none) =
      (l.filter (fun a => p a)).map f := by
  induction l with
  | nil => rfl
  | cons a l ih =>
      by_cases h : p a <;> simp [List.filterMap_cons, List.filter_cons, h, ih]

def sigSoloU400 : Signal :=
  { signal_id := "e", layer := OpsecLayer.DNS, description := "", value := "",
    timestamp := 400, correlation_potential := CorrelationStrength.SOLO,
    detectability := DetectabilityLevel.TRIVIAL }

/-- C4: the temporal pass buckets the accumulated signals by
`floor(epoch_seconds / 300)`, emits exactly one TEMPORAL result per bucket
with ≥2 signals spanning ≥2 distinct layers and nothing for any other
bucket; two signals 400 seconds apart necessarily land in different
floor-buckets, so alone they yield no TEMPORAL result. -/
theorem c4_temporal_pass :
    (∀ signals : List Signal,
      correlate_temporal 300 signals =
        ((groupByKey (bucketKey 300) signals).filter
            (fun kg => 2 ≤ kg.2.length ∧ 2 ≤ uniqueLayerCount kg.2)).map
          (fun kg => mkResult temporalType (temporalExpl 300 kg.2) kg.2)
      ∧ ((groupByKey (bucketKey 300) signals).map Prod.fst).Nodup
      ∧ (∀ kg ∈ groupByKey (bucketKey 300) signals,
          kg.2 = signals.filter (fun s => s.timestamp / 300 = kg.1))
      ∧ (∀ k : Nat, k ∈ (groupByKey (bucketKey 300) signals).map Prod.fst ↔
          ∃ s ∈ signals, s.timestamp / 300 = k))
    ∧ (∀ s1 s2 : Signal, s2.timestamp = s1.timestamp + 400 →
        bucketKey 300 s1 ≠ bucketKey 300 s2 ∧ correlate_temporal 300 [s1, s2] = []) := by
  constructor
  · intro signals
    refine ⟨?_, ?_, ?_, ?_⟩
    · exact filterMap_ite _ _ _
    · rw [groupByKey_fst]
      exact firstKeys_nodup _
    · intro kg hkg
      have := groupByKey_content (bucketKey 300) signals kg hkg
      simpa [bucketKey] using this
    · intro k
      rw [groupByKey_fst, mem_firstKeys]
      simp [bucketKey]
  · intro s1 s2 h
    have hlt : bucketKey 300 s1 < bucketKey 300 s2 := by
      unfold bucketKey
      rw [h]
      calc s1.timestamp / 300 < s1.timestamp / 300 + 1 := Nat.lt_succ_self _
        _ = (s1.timestamp + 300) / 300 := (Nat.add_div_right _ (by norm_num)).symm
        _ ≤ (s1.timestamp + 400) / 300 := Nat.div_le_div_right (by omega)
    have hne : bucketKey 300 s1 ≠ bucketKey 300 s2 := Nat.ne_of_lt hlt
    refine ⟨hne, ?_⟩
    have hg : groupByKey (bucketKey 300) [s1, s2] =
        [(bucketKey 300 s1, [s1]), (bucketKey 300 s2, [s2])] := by
      simp [groupByKey, addToGroups, hne]
    rw [correlate_temporal, hg]
    simp

theorem c4_witness :
    bucketKey 300 sigSoloU1 ≠ bucketKey 300 sigSoloU400 ∧
      correlate_temporal 300 [sigSoloU1, sigSoloU400] = [] :=
  c4_temporal_pass.2 sigSoloU1 sigSoloU400 rfl

/-! ### Claim C5 -/

lemma filter_type_single (ct ct2 e : String) (g : List Signal) :
    [mkResult ct e g].filter (fun r => r.correlation_type = ct2) =
      if ct = ct2 then [mkResult ct e g] else [] := by
  by_cases h : ct = ct2 <;> simp [mkResult, h, List.filter_cons]

/-- C5: the cross-layer pass emits exactly one DNS_NETWORK_CORRELATION result
iff some DNS-layer signal id contains "resolver" or "public_resolver" and
some NETWORK-layer signal id contains "as" (case-insensitively); its signal
group is the DNS matches followed by the NETWORK matches, and with either
matching subset empty no such result is emitted. -/
theorem c5_cross_layer_dns_network :
    ∀ signals : List Signal,
      ((correlate_cross_layer signals).filter
          (fun r => r.correlation_type = dnsNetworkType)) =
        (if ((signals.filter (fun s => s.layer = OpsecLayer.DNS)).filter dnsResolverMatch) ≠ [] ∧
            ((signals.filter (fun s => s.layer = OpsecLayer.NETWORK)).filter asMatch) ≠ [] then
          [mkResult dnsNetworkType dnsNetworkExpl
            (((signals.filter (fun s => s.layer = OpsecLayer.DNS)).filter dnsResolverMatch) ++
              ((signals.filter (fun s => s.layer = OpsecLayer.NETWORK)).filter asMatch))]
        else [])
      ∧ (((signals.filter (fun s => s.layer = OpsecLayer.DNS)).filter dnsResolverMatch) ≠ [] ↔
          ∃ s ∈ signals, s.layer = OpsecLayer.DNS ∧ dnsResolverMatch s = true)
      ∧ (((signals.filter (fun s => s.layer = OpsecLayer.NETWORK)).filter asMatch) ≠ [] ↔
          ∃ s ∈ signals, s.layer = OpsecLayer.NETWORK ∧ asMatch s = true) := by
  intro signals
  refine ⟨?_, ?_, ?_⟩
  · simp only [correlate_cross_layer]
    rw [List.filter_append]
    have hB : (if (signals.filter (fun s => s.layer = OpsecLayer.USERLAND)).filter timezoneMatch ≠ [] ∧
          (signals.filter (fun s => s.layer = OpsecLayer.METADATA)).filter timingMatch ≠ [] then
          [mkResult tzTimingType tzTimingExpl
            ((signals.filter (fun s => s.layer = OpsecLayer.USERLAND)).filter timezoneMatch ++
              (signals.filter (fun s => s.layer = OpsecLayer.METADATA)).filter timingMatch)]
        else []).filter (fun r => r.correlation_type = dnsNetworkType) = [] := by
      by_cases h2 : (signals.filter (fun s => s.layer = OpsecLayer.USERLAND)).filter timezoneMatch ≠ [] ∧
          (signals.filter (fun s => s.layer = OpsecLayer.METADATA)).filter timingMatch ≠ []
      · rw [if_pos h2, filter_type_single, if_neg (by decide)]
      · rw [if_neg h2]
        rfl
    rw [hB, List.append_nil]
    by_cases h1 : (signals.filter (fun s => s.layer = OpsecLayer.DNS)).filter dnsResolverMatch ≠ [] ∧
        (signals.filter (fun s => s.layer = OpsecLayer.NETWORK)).filter asMatch ≠ []
    · rw [if_pos h1, filter_type_single, if_pos rfl]
    · rw [if_neg h1]
      rfl
  · constructor
    · intro hne
      rcases List.exists_mem_of_ne_nil _ hne with ⟨x, hx⟩
      rcases List.mem_filter.mp hx with ⟨hx1, hx2⟩
      rcases List.mem_filter.mp hx1 with ⟨hx0, hx3⟩
      exact ⟨x, hx0, by simpa using hx3, hx2⟩
    · rintro ⟨s, hs, h1, h2⟩
      intro hc
      have hmem : s ∈ (signals.filter (fun s => s.layer = OpsecLayer.DNS)).filter dnsResolverMatch :=
        List.mem_filter.mpr ⟨List.mem_filter.mpr ⟨hs, by simpa using h1⟩, h2⟩
      rw [hc] at hmem
      simp at hmem
  · constructor
    · intro hne
      rcases List.exists_mem_of_ne_nil _ hne with ⟨x, hx⟩
      rcases List.mem_filter.mp hx with ⟨hx1, hx2⟩
      rcases List.mem_filter.mp hx1 with ⟨hx0, hx3⟩
      exact ⟨x, hx0, by simpa using hx3, hx2⟩
    · rintro ⟨s, hs, h1, h2⟩
      intro hc
      have hmem : s ∈ (signals.filter (fun s => s.layer = OpsecLayer.NETWORK)).filter asMatch :=
        List.mem_filter.mpr ⟨List.mem_filter.mpr ⟨hs, by simpa using h1⟩, h2⟩
      rw [hc] at hmem
      simp at hmem

/-! ### Claim C6 -/

lemma groupByKey_length {α κ : Type} [DecidableEq κ] (key : α → κ) (l : List α) :
    (groupByKey key l).length = (l.map key).dedup.length := by
  have h1 : (groupByKey key l).length = (firstKeys (l.map key)).length := by
    rw [groupByKey_eq, List.length_map]
  have h2 : (firstKeys (l.map key)).toFinset = (l.map key).toFinset := by
    ext x
    simp [List.mem_toFinset, mem_firstKeys]
  calc (groupByKey key l).length
      = (firstKeys (l.map key)).length := h1
    _ = (firstKeys (l.map key)).toFinset.card :=
        (List.toFinset_card_of_nodup (firstKeys_nodup _)).symm
    _ = (l.map key).toFinset.card := by rw [h2]
    _ = (l.map key).dedup.length := List.card_toFinset _

lemma keyOrErr_err (s : Signal) :
    keyOrErr s =
      Except.error (strengthValue s.correlation_potential ++ notInListMsg) := by
  cases h : s.correlation_potential <;>
    simp [keyOrErr, idxInList, strengthValue, h]

lemma reprOfGroup_cons (s : Signal) (t : List Signal) :
    reprOfGroup (s :: t) =
      Except.error (strengthValue s.correlation_potential ++ notInListMsg) := by
  simp [reprOfGroup, mapExc, keyOrErr_err]

lemma correlate_multi_ok (signals : List Signal) (h : uniqueLayerCount signals < 3) :
    correlate_multi_signal signals = Except.ok [] := by
  have hlen : (groupByKey (fun s => s.layer) signals).length < 3 := by
    rw [groupByKey_length]
    exact h
  simp only [correlate_multi_signal]
  rw [if_neg (not_le.mpr hlen)]

lemma correlate_multi_err (signals : List Signal) (h : 3 ≤ uniqueLayerCount signals) :
    ∃ e, correlate_multi_signal signals = Except.error e := by
  have hlen : 3 ≤ (groupByKey (fun s => s.layer) signals).length := by
    rw [groupByKey_length]
    exact h
  cases hG : groupByKey (fun s => s.layer) signals with
  | nil =>
      rw [hG] at hlen
      simp at hlen
  | cons kg rest =>
      obtain ⟨k0, g0⟩ := kg
      have hmem : (k0, g0) ∈ groupByKey (fun s => s.layer) signals := by
        rw [hG]
        exact List.mem_cons_self _ _
      have hcont : g0 = signals.filter (fun a => a.layer = k0) := by
        simpa using groupByKey_content (fun s => s.layer) signals (k0, g0) hmem
      have hkey : k0 ∈ signals.map (fun s => s.layer) := by
        have hk : k0 ∈ (groupByKey (fun s => s.layer) signals).map Prod.fst :=
          List.mem_map_of_mem Prod.fst hmem
        rw [groupByKey_fst] at hk
        exact (mem_firstKeys _ _).mp hk
      rcases List.mem_map.mp hkey with ⟨s0, hs0, hs0k⟩
      have hfil : s0 ∈ signals.filter (fun a => a.layer = k0) :=
        List.mem_filter.mpr ⟨hs0, by simp [hs0k]⟩
      cases hg0 : g0 with
      | nil =>
          rw [hg0] at hcont
          rw [← hcont] at hfil
          simp at hfil
      | cons s1 t1 =>
          rw [hG] at hlen
          rw [hg0] at hlen
          refine ⟨strengthValue s1.correlation_potential ++ notInListMsg, ?_⟩
          simp only [correlate_multi_signal, hG, hg0]
          rw [if_pos hlen]
          have hmap : mapExc (fun kg => reprOfGroup kg.2) ((k0, s1 :: t1) :: rest) =
              Except.error (strengthValue s1.correlation_potential ++ notInListMsg) := by
            simp [mapExc, reprOfGroup_cons]
          rw [hmap]

/-- C6: the multi-signal convergence pass never emits the claimed
MULTI_LAYER_CONVERGENCE result: whenever ≥3 distinct layers are present it
raises `ValueError` (the lowercase enum value is looked up in the uppercase
list `['WEAK', 'MULTI', 'PAIR', 'SOLO']`), and with fewer than 3 distinct
layers it returns the empty list. -/
theorem c6_multi_signal_value_error :
    (∀ signals : List Signal, uniqueLayerCount signals < 3 →
        correlate_multi_signal signals = Except.ok [])
    ∧ (∀ signals : List Signal, 3 ≤ uniqueLayerCount signals →
        ∃ e, correlate_multi_signal signals = Except.error e)
    ∧ correlate_multi_signal [sigSoloU1, sigSoloD1, sigSoloN1] =
        Except.error "solo is not in list" :=
  ⟨correlate_multi_ok, correlate_multi_err, rfl⟩

theorem c6_witness : correlate_multi_signal [sigSoloU1] = Except.ok [] :=
  c6_multi_signal_value_error.1 [sigSoloU1] (by decide)

/-! ### Claim C7 -/

/-- C7: `correlate_all` returns the concatenation temporal ++ cross-layer ++
multi-signal and stores the same sequence, and on an empty signal set both
are the empty sequence, not an error — but only while fewer than 3 distinct
layers are present: with ≥3 distinct layers the multi-signal pass raises
`ValueError`, the call propagates the exception instead of returning, and
only the first two passes' results are stored. -/
theorem c7_correlate_all :
    (correlate_all [] = Except.ok [] ∧ correlate_all_stored [] = [])
    ∧ (∀ signals : List Signal, uniqueLayerCount signals < 3 →
        correlate_all signals =
          Except.ok (correlate_temporal 300 signals ++ correlate_cross_layer signals)
        ∧ correlate_all_stored signals =
          correlate_temporal 300 signals ++ correlate_cross_layer signals)
    ∧ (∀ signals : List Signal, 3 ≤ uniqueLayerCount signals →
        (∃ e, correlate_all signals = Except.error e)
        ∧ correlate_all_stored signals =
          correlate_temporal 300 signals ++ correlate_cross_layer signals)
    ∧ correlate_all [sigSoloU1, sigSoloD1, sigSoloN1] =
        Except.error "solo is not in list" := by
  refine ⟨⟨rfl, rfl⟩, ?_, ?_, rfl⟩
  · intro signals h
    have hm := correlate_multi_ok signals h
    constructor
    · simp only [correlate_all, hm, List.append_nil]
    · simp only [correlate_all_stored, hm, List.append_nil]
  · intro signals h
    rcases correlate_multi_err signals h with ⟨e, he⟩
    constructor
    · exact ⟨e, by simp only [correlate_all, he]⟩
    · simp only [correlate_all_stored, he]

theorem c7_witness :
    correlate_all [sigSoloU1] =
      Except.ok (correlate_temporal 300 [sigSoloU1] ++ correlate_cross_layer [sigSoloU1]) :=
  (c7_correlate_all.2.1 [sigSoloU1] (by decide)).1

/-! ### Claim C8 -/

lemma dedupRecs_sublist (rs : List Recommendation) (seen : List (String × String)) :
    List.Sublist (dedupRecs rs seen) rs := by
  induction rs generalizing seen with
  | nil => simp [dedupRecs]
  | cons r rs ih =>
      rw [dedupRecs]
      by_cases h : (r.priority, r.issue) ∈ seen
      · rw [if_pos h]
        exact (ih seen).cons r
      · rw [if_neg h]
        exact (ih _).cons₂ r

lemma dedupRecs_pairwise (rs : List Recommendation) (seen : List (String × String)) :
    (dedupRecs rs seen).Pairwise
      (fun a b => (a.priority, a.issue) ≠ (b.priority, b.issue))
    ∧ ∀ r ∈ dedupRecs rs seen, (r.priority, r.issue) ∉ seen := by
  induction rs generalizing seen with
  | nil => exact ⟨List.Pairwise.nil, by simp [dedupRecs]⟩
  | cons r rs ih =>
      rw [dedupRecs]
      by_cases h : (r.priority, r.issue) ∈ seen
      · rw [if_pos h]
        exact ih seen
      · rw [if_neg h]
        rcases ih ((r.priority, r.issue) :: seen) with ⟨hp, hs⟩
        refine ⟨List.Pairwise.cons ?_ hp, ?_⟩
        · intro b hb he
          exact hs b hb (by rw [← he]; exact List.mem_cons_self _ _)
        · intro x hx
          rcases List.mem_cons.mp hx with hx | hx
          · subst hx
            exact h
          · intro hc
            exact hs x hx (List.mem_cons_of_mem _ hc)

lemma recTemplate_mapped_type (c : CorrelationResult) (r : Recommendation)
    (h : recTemplate c = some r) :
    c.correlation_type = dnsNetworkType ∨ c.correlation_type = tzTimingType ∨
      c.correlation_type = multiLayerType := by
  by_contra hc
  push_neg at hc
  rcases hc with ⟨h1, h2, h3⟩
  rw [recTemplate, if_neg h1, if_neg h2, if_neg h3] at h
  exact Option.noConfusion h

/-- First-seen-order deduplication, stated from the claim's words as a
comparison point for the source's seen-set loop: walk the raw entry stream
in order and append an entry exactly when no already-kept entry carries its
(priority, issue) key — so each key keeps its first entry, and the kept
entries stand in first-seen order. -/
def firstSeenDedup (rs : List Recommendation) : List Recommendation :=
  rs.foldl (fun acc r =>
    if (r.priority, r.issue) ∈ acc.map (fun x => (x.priority, x.issue)) then acc
    else acc ++ [r]) []

lemma dedupRecs_foldl_aux (rs : List Recommendation) (seen : List (String × String))
    (acc : List Recommendation)
    (h : ∀ k, k ∈ seen ↔ k ∈ acc.map (fun x => (x.priority, x.issue))) :
    acc ++ dedupRecs rs seen =
      rs.foldl (fun acc r =>
        if (r.priority, r.issue) ∈ acc.map (fun x => (x.priority, x.issue)) then acc
        else acc ++ [r]) acc := by
  induction rs generalizing seen acc with
  | nil => simp [dedupRecs]
  | cons r rs ih =>
      rw [dedupRecs, List.foldl_cons]
      by_cases hk : (r.priority, r.issue) ∈ seen
      · rw [if_pos hk, if_pos ((h _).mp hk)]
        exact ih seen acc h
      · rw [if_neg hk, if_neg (fun hc => hk ((h _).mpr hc))]
        have h2 : ∀ k, k ∈ (r.priority, r.issue) :: seen ↔
            k ∈ (acc ++ [r]).map (fun x => (x.priority, x.issue)) := by
          intro k
          rw [List.map_append, List.mem_append, List.mem_cons]
          constructor
          · rintro (hx | hx)
            · exact Or.inr (by simp [hx])
            · exact Or.inl ((h k).mp hx)
          · rintro (hx | hx)
            · exact Or.inr ((h k).mpr hx)
            · simp only [List.map_cons, List.map_nil, List.mem_singleton] at hx
              exact Or.inl hx
        have h3 := ih ((r.priority, r.issue) :: seen) (acc ++ [r]) h2
        rw [← h3]
        simp

lemma dedupRecs_eq_firstSeen (rs : List Recommendation) :
    dedupRecs rs [] = firstSeenDedup rs := by
  have h := dedupRecs_foldl_aux rs [] [] (by simp)
  simpa [firstSeenDedup] using h

/-- C8: mitigation recommendations hold at most one entry per distinct
(priority, issue) pair, preserving first-seen order — the output equals the
first-seen-order deduplication of the raw template stream, keeping each
key's first entry in stream order — for every stored correlation state (so
also after repeated `correlate_all` runs without `clear`); every entry stems
from a HIGH/CRITICAL-confidence correlation of one of the three mapped
types; a TEMPORAL correlation maps to no template. -/
theorem c8_mitigation_dedup :
    (∀ cs : List CorrelationResult,
      get_mitigation_recommendations cs =
        firstSeenDedup ((get_high_risk_correlations cs).filterMap recTemplate)
      ∧ (get_mitigation_recommendations cs).Pairwise
        (fun a b => (a.priority, a.issue) ≠ (b.priority, b.issue))
      ∧ List.Sublist (get_mitigation_recommendations cs)
          ((get_high_risk_correlations cs).filterMap recTemplate))
    ∧ (∀ (cs : List CorrelationResult) (r : Recommendation),
        r ∈ get_mitigation_recommendations cs →
        ∃ c ∈ cs,
          (c.attribution_confidence = "HIGH" ∨ c.attribution_confidence = "CRITICAL")
          ∧ recTemplate c = some r
          ∧ (c.correlation_type = dnsNetworkType ∨ c.correlation_type = tzTimingType ∨
              c.correlation_type = multiLayerType))
    ∧ (∀ c : CorrelationResult, c.correlation_type = temporalType →
        recTemplate c = none) := by
  refine ⟨?_, ?_, ?_⟩
  · intro cs
    refine ⟨?_, (dedupRecs_pairwise _ []).1, dedupRecs_sublist _ []⟩
    rw [get_mitigation_recommendations]
    exact dedupRecs_eq_firstSeen _
  · intro cs r hr
    have hr2 : r ∈ (get_high_risk_correlations cs).filterMap recTemplate :=
      (dedupRecs_sublist _ []).subset hr
    rcases List.mem_filterMap.mp hr2 with ⟨c, hc, hct⟩
    rcases List.mem_filter.mp hc with ⟨hcs, hconf⟩
    refine ⟨c, hcs, by simpa using hconf, hct, recTemplate_mapped_type c r hct⟩
  · intro c h
    rw [recTemplate, h, if_neg (by decide), if_neg (by decide), if_neg (by decide)]

theorem c8_witness :
    recTemplate (mkResult temporalType (temporalExpl 300 []) []) = none :=
  c8_mitigation_dedup.2.2 (mkResult temporalType (temporalExpl 300 []) []) rfl

/-! ### Claim C9 -/

lemma stored_eq (signals : List Signal) :
    correlate_all_stored signals =
      correlate_temporal 300 signals ++ correlate_cross_layer signals := by
  rcases lt_or_le (uniqueLayerCount signals) 3 with h | h
  · have hm := correlate_multi_ok signals h
    simp only [correlate_all_stored, hm, List.append_nil]
  · rcases correlate_multi_err signals h with ⟨e, he⟩
    simp only [correlate_all_stored, he]

lemma mem_temporal_mk (w : Nat) (signals : List Signal) (r : CorrelationResult)
    (hr : r ∈ correlate_temporal w signals) :
    ∃ kg ∈ groupByKey (bucketKey w) signals,
      (2 ≤ kg.2.length ∧ 2 ≤ uniqueLayerCount kg.2) ∧
      r = mkResult temporalType (temporalExpl w kg.2) kg.2 := by
  rcases List.mem_filterMap.mp hr with ⟨kg, hkg, hif⟩
  by_cases h : 2 ≤ kg.2.length ∧ 2 ≤ uniqueLayerCount kg.2
  · rw [if_pos h] at hif
    exact ⟨kg, hkg, h, (Option.some.inj hif).symm⟩
  · rw [if_neg h] at hif
    exact Option.noConfusion hif

lemma mem_cross_mk (signals : List Signal) (r : CorrelationResult)
    (hr : r ∈ correlate_cross_layer signals) :
    (((signals.filter (fun s => s.layer = OpsecLayer.DNS)).filter dnsResolverMatch) ≠ [] ∧
      ((signals.filter (fun s => s.layer = OpsecLayer.NETWORK)).filter asMatch) ≠ [] ∧
      r = mkResult dnsNetworkType dnsNetworkExpl
        (((signals.filter (fun s => s.layer = OpsecLayer.DNS)).filter dnsResolverMatch) ++
          ((signals.filter (fun s => s.layer = OpsecLayer.NETWORK)).filter asMatch)))
    ∨ (((signals.filter (fun s => s.layer = OpsecLayer.USERLAND)).filter timezoneMatch) ≠ [] ∧
      ((signals.filter (fun s => s.layer = OpsecLayer.METADATA)).filter timingMatch) ≠ [] ∧
      r = mkResult tzTimingType tzTimingExpl
        (((signals.filter (fun s => s.layer = OpsecLayer.USERLAND)).filter timezoneMatch) ++
          ((signals.filter (fun s => s.layer = OpsecLayer.METADATA)).filter timingMatch))) := by
  simp only [correlate_cross_layer] at hr
  rcases List.mem_append.mp hr with h | h
  · by_cases h1 : ((signals.filter (fun s => s.layer = OpsecLayer.DNS)).filter dnsResolverMatch) ≠ [] ∧
        ((signals.filter (fun s => s.layer = OpsecLayer.NETWORK)).filter asMatch) ≠ []
    · rw [if_pos h1] at h
      exact Or.inl ⟨h1.1, h1.2, List.mem_singleton.mp h⟩
    · rw [if_neg h1] at h
      simp at h
  · by_cases h2 : ((signals.filter (fun s => s.layer = OpsecLayer.USERLAND)).filter timezoneMatch) ≠ [] ∧
        ((signals.filter (fun s => s.layer = OpsecLayer.METADATA)).filter timingMatch) ≠ []
    · rw [if_pos h2] at h
      exact Or.inr ⟨h2.1, h2.2, List.mem_singleton.mp h⟩
    · rw [if_neg h2] at h
      simp at h

lemma mkResult_invariant (ct e : String) (g : List Signal) :
    (0 ≤ (mkResult ct e g).correlation_score ∧ (mkResult ct e g).correlation_score ≤ 1)
    ∧ (mkResult ct e g).attribution_confidence =
        assess_attribution_confidence (mkResult ct e g).correlation_score
    ∧ (mkResult ct e g).risk_level =
        assess_risk_level (mkResult ct e g).attribution_confidence
          (mkResult ct e g).signals.length :=
  ⟨⟨(score_bounds g).1, (score_bounds g).2⟩, rfl, rfl⟩

/-- C9: every stored result of a `correlate_all` run has its score in [0,1],
its confidence equal to `assess_attribution_confidence` of its score and its
risk level equal to `assess_risk_level` of that confidence and its group
size. -/
theorem c9_result_invariants :
    ∀ (signals : List Signal) (r : CorrelationResult),
      r ∈ correlate_all_stored signals →
        (0 ≤ r.correlation_score ∧ r.correlation_score ≤ 1)
        ∧ r.attribution_confidence = assess_attribution_confidence r.correlation_score
        ∧ r.risk_level = assess_risk_level r.attribution_confidence r.signals.length := by
  intro signals r hr
  rw [stored_eq] at hr
  rcases List.mem_append.mp hr with h | h
  · rcases mem_temporal_mk 300 signals r h with ⟨kg, _, _, rfl⟩
    exact mkResult_invariant _ _ _
  · rcases mem_cross_mk signals r h with ⟨_, _, rfl⟩ | ⟨_, _, rfl⟩ <;>
      exact mkResult_invariant _ _ _

theorem c9_witness :
    (0 ≤ (mkResult temporalType (temporalExpl 300 [sigSoloU1, sigSoloD1])
          [sigSoloU1, sigSoloD1]).correlation_score ∧
      (mkResult temporalType (temporalExpl 300 [sigSoloU1, sigSoloD1])
          [sigSoloU1, sigSoloD1]).correlation_score ≤ 1)
    ∧ (mkResult temporalType (temporalExpl 300 [sigSoloU1, sigSoloD1])
          [sigSoloU1, sigSoloD1]).attribution_confidence =
        assess_attribution_confidence
          (mkResult temporalType (temporalExpl 300 [sigSoloU1, sigSoloD1])
            [sigSoloU1, sigSoloD1]).correlation_score
    ∧ (mkResult temporalType (temporalExpl 300 [sigSoloU1, sigSoloD1])
          [sigSoloU1, sigSoloD1]).risk_level =
        assess_risk_level
          (mkResult temporalType (temporalExpl 300 [sigSoloU1, sigSoloD1])
            [sigSoloU1, sigSoloD1]).attribution_confidence
          (mkResult temporalType (temporalExpl 300 [sigSoloU1, sigSoloD1])
            [sigSoloU1, sigSoloD1]).signals.length :=
  c9_result_invariants [sigSoloU1, sigSoloD1]
    (mkResult temporalType (temporalExpl 300 [sigSoloU1, sigSoloD1]) [sigSoloU1, sigSoloD1])
    (by
      have h : correlate_all_stored [sigSoloU1, sigSoloD1] =
          [mkResult temporalType (temporalExpl 300 [sigSoloU1, sigSoloD1])
            [sigSoloU1, sigSoloD1]] := rfl
      rw [h]
      exact List.mem_singleton.mpr rfl)

/-! ### Claim C10 -/

lemma mkResult_signals (ct e : String) (g : List Signal) :
    (mkResult ct e g).signals = g := rfl

lemma mkResult_type (ct e : String) (g : List Signal) :
    (mkResult ct e g).correlation_type = ct := rfl

lemma two_mem_le_length {α : Type} (l : List α) (a b : α) (ha : a ∈ l) (hb : b ∈ l)
    (hab : a ≠ b) : 2 ≤ l.length := by
  cases l with
  | nil => simp at ha
  | cons x t =>
      cases t with
      | nil =>
          rw [List.mem_singleton] at ha hb
          exact absurd (ha.trans hb.symm) hab
      | cons y u =>
          simp only [List.length_cons]
          omega

lemma filter_layer_mem (signals : List Signal) (L : OpsecLayer) (p : Signal → Bool)
    (s : Signal) (h : s ∈ (signals.filter (fun s => s.layer = L)).filter p) :
    s.layer = L := by
  have h1 := (List.mem_filter.mp h).1
  have h2 := (List.mem_filter.mp h1).2
  simpa using h2

/-- C10: every correlation produced by a `correlate_all` run groups ≥2
signals spanning ≥2 distinct layers, and a MULTI_LAYER_CONVERGENCE result
could only span ≥3 distinct layers; also the returned sequence, when the
call returns at all, is exactly the stored sequence. -/
theorem c10_result_shape :
    (∀ (signals : List Signal) (r : CorrelationResult),
      r ∈ correlate_all_stored signals →
        2 ≤ r.signals.length ∧ 2 ≤ uniqueLayerCount r.signals
        ∧ (r.correlation_type = multiLayerType → 3 ≤ uniqueLayerCount r.signals))
    ∧ (∀ (signals : List Signal) (res : List CorrelationResult),
        correlate_all signals = Except.ok res → res = correlate_all_stored signals) := by
  constructor
  · intro signals r hr
    rw [stored_eq] at hr
    rcases List.mem_append.mp hr with h | h
    · rcases mem_temporal_mk 300 signals r h with ⟨kg, _, ⟨hl, hu⟩, rfl⟩
      simp only [mkResult_signals, mkResult_type]
      refine ⟨hl, hu, ?_⟩
      intro hty
      exact absurd hty (by decide)
    · rcases mem_cross_mk signals r h with ⟨h1, h2, rfl⟩ | ⟨h1, h2, rfl⟩
      · simp only [mkResult_signals, mkResult_type]
        have hA := List.length_pos.mpr h1
        have hB := List.length_pos.mpr h2
        refine ⟨by rw [List.length_append]; omega, ?_, ?_⟩
        · rcases List.exists_mem_of_ne_nil _ h1 with ⟨sd, hsd⟩
          rcases List.exists_mem_of_ne_nil _ h2 with ⟨sn, hsn⟩
          have hld : sd.layer = OpsecLayer.DNS := filter_layer_mem _ _ _ _ hsd
          have hln : sn.layer = OpsecLayer.NETWORK := filter_layer_mem _ _ _ _ hsn
          have hmd : OpsecLayer.DNS ∈
              ((((signals.filter (fun s => s.layer = OpsecLayer.DNS)).filter dnsResolverMatch) ++
                ((signals.filter (fun s => s.layer = OpsecLayer.NETWORK)).filter asMatch)).map
                  (fun s => s.layer)) :=
            List.mem_map.mpr ⟨sd, List.mem_append.mpr (Or.inl hsd), hld⟩
          have hmn : OpsecLayer.NETWORK ∈
              ((((signals.filter (fun s => s.layer = OpsecLayer.DNS)).filter dnsResolverMatch) ++
                ((signals.filter (fun s => s.layer = OpsecLayer.NETWORK)).filter asMatch)).map
                  (fun s => s.layer)) :=
            List.mem_map.mpr ⟨sn, List.mem_append.mpr (Or.inr hsn), hln⟩
          unfold uniqueLayerCount
          exact two_mem_le_length _ _ _ (List.mem_dedup.mpr hmd) (List.mem_dedup.mpr hmn)
            (by decide)
        · intro hty
          exact absurd hty (by decide)
      · simp only [mkResult_signals, mkResult_type]
        have hA := List.length_pos.mpr h1
        have hB := List.length_pos.mpr h2
        refine ⟨by rw [List.length_append]; omega, ?_, ?_⟩
        · rcases List.exists_mem_of_ne_nil _ h1 with ⟨su, hsu⟩
          rcases List.exists_mem_of_ne_nil _ h2 with ⟨sm, hsm⟩
          have hlu : su.layer = OpsecLayer.USERLAND := filter_layer_mem _ _ _ _ hsu
          have hlm : sm.layer = OpsecLayer.METADATA := filter_layer_mem _ _ _ _ hsm
          have hmu : OpsecLayer.USERLAND ∈
              ((((signals.filter (fun s => s.layer = OpsecLayer.USERLAND)).filter timezoneMatch) ++
                ((signals.filter (fun s => s.layer = OpsecLayer.METADATA)).filter timingMatch)).map
                  (fun s => s.layer)) :=
            List.mem_map.mpr ⟨su, List.mem_append.mpr (Or.inl hsu), hlu⟩
          have hmm : OpsecLayer.METADATA ∈
              ((((signals.filter (fun s => s.layer = OpsecLayer.USERLAND)).filter timezoneMatch) ++
                ((signals.filter (fun s => s.layer = OpsecLayer.METADATA)).filter timingMatch)).map
                  (fun s => s.layer)) :=
            List.mem_map.mpr ⟨sm, List.mem_append.mpr (Or.inr hsm), hlm⟩
          unfold uniqueLayerCount
          exact two_mem_le_length _ _ _ (List.mem_dedup.mpr hmu) (List.mem_dedup.mpr hmm)
            (by decide)
        · intro hty
          exact absurd hty (by decide)
  · intro signals res h
    cases hm : correlate_multi_signal signals with
    | error e =>
        simp only [correlate_all, hm] at h
        exact Except.noConfusion h
    | ok l =>
        simp only [correlate_all, hm] at h
        rw [← Except.ok.inj h]
        simp only [correlate_all_stored, hm]

theorem c10_witness :
    2 ≤ (mkResult temporalType (temporalExpl 300 [sigSoloU1, sigSoloD1])
          [sigSoloU1, sigSoloD1]).signals.length
    ∧ 2 ≤ uniqueLayerCount (mkResult temporalType (temporalExpl 300 [sigSoloU1, sigSoloD1])
          [sigSoloU1, sigSoloD1]).signals
    ∧ ((mkResult temporalType (temporalExpl 300 [sigSoloU1, sigSoloD1])
          [sigSoloU1, sigSoloD1]).correlation_type = multiLayerType →
        3 ≤ uniqueLayerCount (mkResult temporalType (temporalExpl 300 [sigSoloU1, sigSoloD1])
          [sigSoloU1, sigSoloD1]).signals) :=
  c10_result_shape.1 [sigSoloU1, sigSoloD1]
    (mkResult temporalType (temporalExpl 300 [sigSoloU1, sigSoloD1]) [sigSoloU1, sigSoloD1])
    (by
      have h : correlate_all_stored [sigSoloU1, sigSoloD1] =
          [mkResult temporalType (temporalExpl 300 [sigSoloU1, sigSoloD1])
            [sigSoloU1, sigSoloD1]] := rfl
      rw [h]
      exact List.mem_singleton.mpr rfl)
